import Mathlib

/-!
# Verification of the scrape-extract-load pipeline

A shallow embedding of the core of the `EM-block_05` repository
(`app/scraper/scraper.py`, `app/scraper/main.py`, `app/routers/other.py`,
`app/routers/get_data.py`, `app/db/query.py`, `app/db/schemas.py`,
`app/utils/caching.py`), together with theorems checking the behavioural
claims of the specification against this embedding.

Conventions of the embedding:
* Python exceptions become `Except String` results; an `.error` value is a
  raised exception propagating out of the modelled function.
* `BeautifulSoup` queries are pre-resolved: a listing page is a list of
  entry blocks, where each optional piece (`find("a")`, `find("span")`,
  `.string`, `.get("href")`) is an `Option` that is `none` exactly when
  the corresponding Python runtime check (`isinstance(..., Tag)`,
  `isinstance(..., NavigableString)`, `isinstance(..., str)`) fails.
* Python string operations are modelled on the code-point lists of Lean
  strings, so that every definition evaluates inside the kernel.
* The asyncio event loop is modelled, where a claim needs it, as an
  explicit interleaving of the atomic segments between `await` points.
-/

/-! ## Python string primitives -/

/-- `List` version of Python `str.startswith`. -/
def listPrefixOf : List Char → List Char → Bool
  | [], _ => true
  | _ :: _, [] => false
  | a :: as, b :: bs => a == b && listPrefixOf as bs

/-- `List` version of Python substring containment (`needle in haystack`). -/
def listInfixOf (n : List Char) : List Char → Bool
  | [] => listPrefixOf n []
  | b :: bs => listPrefixOf n (b :: bs) || listInfixOf n bs

/-- Python `str.split(sep)` for a one-character separator: splits on every
occurrence, keeping empty pieces (`"".split(sep) == [""]`). -/
def splitOnC (sep : Char) : List Char → List (List Char)
  | [] => [[]]
  | c :: cs =>
    let r := splitOnC sep cs
    if c == sep then [] :: r
    else
      match r with
      | h :: t => (c :: h) :: t
      | [] => [[c]]

/-- Parse a non-empty all-digit character list as a natural number. -/
def digitsToNat (cs : List Char) : Option Nat :=
  if cs.isEmpty || !cs.all Char.isDigit then none
  else some (cs.foldl (fun n c => n * 10 + (c.toNat - 48)) 0)

/-- Python substring containment on strings, by code points. -/
def containsSub (needle haystack : String) : Bool :=
  listInfixOf needle.toList haystack.toList

/-- Python `str.startswith` on strings. -/
def pyStartsWith (p s : String) : Bool :=
  listPrefixOf p.toList s.toList

/-! ## Dates -/

/-- A calendar date, as compared by Python `datetime` objects whose time
component is midnight (`datetime.strptime(_, "%d.%m.%Y")`). -/
structure Date where
  year : Nat
  month : Nat
  day : Nat
deriving DecidableEq, Repr

/-- Python `datetime` order on date-only values: lexicographic on
(year, month, day). -/
def dateLe (a b : Date) : Bool :=
  if a.year ≠ b.year then decide (a.year < b.year)
  else if a.month ≠ b.month then decide (a.month < b.month)
  else decide (a.day ≤ b.day)

/-- Leap-year rule used by the Gregorian calendar (and `datetime`). -/
def isLeapYear (y : Nat) : Bool :=
  y % 4 == 0 && (y % 100 != 0 || y % 400 == 0)

/-- Number of days in a month, as validated by `datetime.strptime`. -/
def daysInMonth (y m : Nat) : Nat :=
  if m == 2 then (if isLeapYear y then 29 else 28)
  else if m == 4 || m == 6 || m == 9 || m == 11 then 30
  else 31

/-- `datetime.strptime(s, "%d.%m.%Y")`: day and month are 1 or 2 digits,
year is up to 4 digits, all separated by dots, and the triple must be a
valid calendar date.  Failure (`none`) corresponds to the `ValueError`
raised by `strptime`. -/
def parseDate (s : String) : Option Date :=
  match splitOnC '.' s.toList with
  | [ds, ms, ys] =>
    if 1 ≤ ds.length ∧ ds.length ≤ 2 ∧ 1 ≤ ms.length ∧ ms.length ≤ 2
        ∧ 1 ≤ ys.length ∧ ys.length ≤ 4 then
      match digitsToNat ds, digitsToNat ms, digitsToNat ys with
      | some d, some m, some y =>
        if 1 ≤ m ∧ m ≤ 12 ∧ 1 ≤ d ∧ d ≤ daysInMonth y m then
          some ⟨y, m, d⟩
        else none
      | _, _, _ => none
    else none
  | _ => none

/-! ## Link discovery (`app/scraper/scraper.py`, `fetch_links`) -/

/-- The marker that identifies a bulletin entry in the listing
(`"Бюллетень" in (link_tag.string or "")` in `fetch_links`). -/
def bulletinMarker : String := "Бюллетень"

/-- `f_path.split("?")[0].split("/")[-1].split(".")[-1]` from
`fetch_links`: the file extension of a path, after stripping any query
string. -/
def extOf (p : String) : String :=
  let noQuery := (splitOnC '?' p.toList).headD []
  let lastSeg := (splitOnC '/' noQuery).getLastD []
  String.mk ((splitOnC '.' lastSeg).getLastD [])

/-- The anchor tag of a listing entry (`item.find("a")` when it is a
`Tag`).  `label` is `link_tag.string` (`none` when the tag has no single
string child); `href` is `link_tag.get("href")`, `none` when the
attribute is absent or not a string. -/
structure Anchor where
  label : Option String
  href : Option String
deriving DecidableEq, Repr

/-- One `div.accordeon-inner__wrap-item` block of the listing page.
`anchor` is `none` when `item.find("a")` is not a `Tag`; `span` is `none`
when `item.find("span")` is not a `Tag`, `some none` when its `.string`
is not a `NavigableString`, and `some (some s)` when the displayed date
string is `s`. -/
structure Entry where
  anchor : Option Anchor
  span : Option (Option String)
deriving DecidableEq, Repr

/-- The pagination control (`soup.select_one(".bx-pag-next")`): `anchor`
is `none` when `pag_btn.find("a")` is not a `Tag`, `some none` when its
`href` is not a string, `some (some h)` for the next relative URL `h`. -/
structure NextBtn where
  anchor : Option (Option String)
deriving DecidableEq, Repr

/-- A parsed listing page: the entry blocks in document order and the
optional pagination control. -/
structure Page where
  entries : List Entry
  nextBtn : Option NextBtn

/-- The discovery stop condition of `fetch_links`:
`(last_dt and date <= last_dt) or date.year == 2022`. -/
def stopCond (lastDt : Option Date) (d : Date) : Bool :=
  (match lastDt with
   | some l => dateLe d l
   | none => false) || d.year == 2022

/-- The `for item in link_blocks` loop body of `fetch_links`, over the
entries of one listing page.  Returns the links appended on this page
together with the `stop_parsing` flag; an `.error` is a raised
`ValueError`.  The last persisted trading date (`get_last_date`), queried
once per entry in the source, is constant during a run (nothing writes to
the table until the run's final commit), so it is a parameter `lastDt`. -/
def fetch_links_page (lastDt : Option Date) (base_url : String) :
    List Entry → Except String (List (String × String) × Bool)
  | [] => .ok ([], false)
  | e :: rest =>
    match e.anchor with
    | none => .error "link element must be a Tag instance"
    | some a =>
      if containsSub bulletinMarker (a.label.getD "") then
        match e.span with
        | none => .error "span element must be a Tag instance"
        | some none => .error "date element must be a NavigableString instance"
        | some (some ds) =>
          match parseDate ds with
          | none => .error "time data does not match format"
          | some dt =>
            if stopCond lastDt dt then .ok ([], true)
            else
              match a.href with
              | none => .error "href element must be a string"
              | some p =>
                let fp := if pyStartsWith "/" p then p else "/" ++ p
                match fetch_links_page lastDt base_url rest with
                | .ok (ls, stop) =>
                    .ok ((base_url ++ fp, ds ++ "." ++ extOf fp) :: ls, stop)
                | .error m => .error m
      else .ok ([], false)

/-- The `while True` pagination loop of `fetch_links`.  `site` resolves an
absolute URL to its parsed listing page; `fuel` bounds the number of page
fetches (the Python loop has no such bound; every theorem below only
concerns runs that visit finitely many pages). -/
def fetch_links_go (site : String → Page) (lastDt : Option Date)
    (base_url : String) :
    Nat → String → List (String × String) →
    Except String (List (String × String))
  | 0, _, acc => .ok acc
  | fuel + 1, current_page, acc =>
    let page := site (base_url ++ current_page)
    match fetch_links_page lastDt base_url page.entries with
    | .error m => .error m
    | .ok (ls, stop) =>
      if stop then .ok (acc ++ ls)
      else
        match page.nextBtn with
        | none => .ok (acc ++ ls)
        | some btn =>
          match btn.anchor with
          | none => .error "pagination element must be a Tag instance"
          | some none => .error "pagination href must be a string instance"
          | some (some h) => fetch_links_go site lastDt base_url fuel h (acc ++ ls)

/-- `fetch_links(session, base_url, start_url, links)` with `links`
initially empty: the full link-discovery pass. -/
def fetch_links (site : String → Page) (lastDt : Option Date)
    (base_url start : String) (fuel : Nat) :
    Except String (List (String × String)) :=
  fetch_links_go site lastDt base_url fuel start []

/-- The date of an entry as discovery would parse it. -/
def entryDate (e : Entry) : Option Date :=
  match e.span with
  | some (some ds) => parseDate ds
  | _ => none

/-- The `(link, filename)` pair that discovery appends for a well-formed
entry: the base domain concatenated with the '/'-normalized path, and
`{displayed date}.{extension}`. -/
def entryLink (base_url : String) (e : Entry) : Option (String × String) :=
  match e.anchor, e.span with
  | some a, some (some ds) =>
    match a.href with
    | some p =>
      let fp := if pyStartsWith "/" p then p else "/" ++ p
      some (base_url ++ fp, ds ++ "." ++ extOf fp)
    | none => none
  | _, _ => none

/-- A bulletin entry that link discovery appends: well-formed anchor, a
label containing the bulletin marker, a parseable displayed date that does
not trigger the stop condition, and a string `href`. -/
def goodEntry (lastDt : Option Date) (e : Entry) : Bool :=
  match e.anchor, e.span with
  | some a, some (some ds) =>
    containsSub bulletinMarker (a.label.getD "") &&
    (match parseDate ds, a.href with
     | some dt, some _ => !stopCond lastDt dt
     | _, _ => false)
  | _, _ => false

/-- A bulletin entry that triggers the stop condition: its date is not
strictly after the last persisted date, or falls in year 2022. -/
def stopEntry (lastDt : Option Date) (e : Entry) : Bool :=
  match e.anchor, e.span with
  | some a, some (some ds) =>
    containsSub bulletinMarker (a.label.getD "") &&
    (match parseDate ds with
     | some dt => stopCond lastDt dt
     | none => false)
  | _, _ => false

/-- A structurally malformed entry in the sense of the specification
(missing anchor tag, missing date span, non-string date, or non-string
`href`), restricted to the shapes that the scanning loop of `fetch_links`
can actually reach before raising: a missing anchor is reached
unconditionally, the span shapes are reached for bulletin-labelled
entries, and a missing/non-string `href` is reached only when the parsed
date passes the stop check. -/
def malformedScanned (lastDt : Option Date) (e : Entry) : Bool :=
  match e.anchor with
  | none => true
  | some a =>
    containsSub bulletinMarker (a.label.getD "") &&
    (match e.span with
     | none => true
     | some none => true
     | some (some ds) =>
       match parseDate ds with
       | some dt => !stopCond lastDt dt && a.href.isNone
       | none => false)

/-! ## Row schema and persistence (`app/db/schemas.py`, `app/db/query.py`) -/

/-- One trading-result row, with the fields of `ResultSchema`
(`app/db/schemas.py`).  The same shape serves as the raw extracted row
dict and as the validated/stored record, because pydantic validation of
these fields never changes a value — it only accepts or rejects. -/
structure TradeRow where
  exchange_product_id : String
  exchange_product_name : String
  oil_id : String
  delivery_basis_id : String
  delivery_basis_name : String
  delivery_type_id : String
  volume : Int
  total : Int
  count : Int
  date : Date
deriving DecidableEq, Repr

/-- `ResultSchema(**row)`: pydantic validation of one row.  Each string
field carries a `max_length` constraint (11, 255, 4, 3, 255 and 1); a
violation raises a `ValidationError`, otherwise the row is accepted
unchanged (pydantic does not truncate). -/
def ResultSchema.validate (r : TradeRow) : Except String TradeRow :=
  if r.exchange_product_id.length > 11 then
    .error "exchange_product_id: string should have at most 11 characters"
  else if r.exchange_product_name.length > 255 then
    .error "exchange_product_name: string should have at most 255 characters"
  else if r.oil_id.length > 4 then
    .error "oil_id: string should have at most 4 characters"
  else if r.delivery_basis_id.length > 3 then
    .error "delivery_basis_id: string should have at most 3 characters"
  else if r.delivery_basis_name.length > 255 then
    .error "delivery_basis_name: string should have at most 255 characters"
  else if r.delivery_type_id.length > 1 then
    .error "delivery_type_id: string should have at most 1 character"
  else .ok r

/-- A SQLAlchemy session: the rows committed in the store, the rows added
(`session.add_all`) but not yet flushed, and the number of `commit` calls
issued. -/
structure Session where
  committed : List TradeRow
  pending : List TradeRow
  commits : Nat
deriving DecidableEq, Repr

/-- `session.add_all(models)`. -/
def Session.add_all (s : Session) (rows : List TradeRow) : Session :=
  { s with pending := s.pending ++ rows }

/-- `await session.commit()`: flush pending rows into the store. -/
def Session.commit (s : Session) : Session :=
  ⟨s.committed ++ s.pending, [], s.commits + 1⟩

/-- `[ResultSchema(**rows) for rows in file_data]`: validate the rows of
one file group left to right; the first `ValidationError` propagates. -/
def validateFile : List TradeRow → Except String (List TradeRow)
  | [] => .ok []
  | r :: rs =>
    match ResultSchema.validate r with
    | .error e => .error e
    | .ok v =>
      match validateFile rs with
      | .error e => .error e
      | .ok vs => .ok (v :: vs)

/-- `create_data(data, session)` (`app/db/query.py`): for each file group,
validate every row and `add_all` the models; after the loop, a single
`session.commit()`.  A `ValidationError` propagates before the commit. -/
def create_data : List (List TradeRow) → Session → Except String Session
  | [], s => .ok s.commit
  | f :: rest, s =>
    match validateFile f with
    | .error e => .error e
    | .ok rows => create_data rest (s.add_all rows)

/-- `run_pg_session(create_data, data)` as seen by the store: on success
the committed rows of the returned session, on an exception the session is
closed without committing and the store keeps its previous rows. -/
def run_create_data (committed : List TradeRow) (data : List (List TradeRow)) :
    List TradeRow :=
  match create_data data ⟨committed, [], 0⟩ with
  | .ok s => s.committed
  | .error _ => committed

/-! ## File download (`app/scraper/scraper.py`, `get_file`/`download`) -/

/-- Outcome of `session.get(url)` plus streaming for one file.  The body
streams to completion (`ok`); or an `aiohttp.ClientError` (which includes
the connect/read timeout subclasses) is raised by `session.get` before
the destination file is opened (`connectError`); or a `ClientError` such
as `ClientPayloadError` is raised while streaming, after the file was
opened in `"wb"` mode, leaving the bytes written so far on disk
(`midStreamError`); or the overall `ClientTimeout` deadline expires,
raising a plain `asyncio.TimeoutError` that is not a `ClientError`, with
`written` holding the partial file if the deadline hit mid-stream
(`timeoutTotal`). -/
inductive DlOutcome
  | ok (content : String)
  | connectError
  | midStreamError (written : String)
  | timeoutTotal (written : Option String)
deriving DecidableEq, Repr

/-- Whether the outcome raises the uncaught overall-deadline
`asyncio.TimeoutError`. -/
def isTimeout : DlOutcome → Bool
  | .timeoutTotal _ => true
  | _ => false

/-- Result of one `get_file` task: the file written (if any), whether the
task raised an uncaught exception, and whether it logged a download
failure. -/
structure DlResult where
  file : Option (String × String)
  raised : Bool
  loggedError : Bool
deriving DecidableEq, Repr

/-- `get_file(session, url, dest_dir, filename)`: the destination file is
opened in `"wb"` mode inside the `try` as soon as the response arrives.
A `ClientError` is caught and logged: raised at connect time it leaves no
file, raised mid-stream it leaves the already-opened file with the bytes
written so far (nothing deletes it).  A plain `asyncio.TimeoutError` is
not caught and propagates. -/
def get_file (out : DlOutcome) (filename : String) : DlResult :=
  match out with
  | .ok c => ⟨some (filename, c), false, false⟩
  | .connectError => ⟨none, false, true⟩
  | .midStreamError w => ⟨some (filename, w), false, true⟩
  | .timeoutTotal w => ⟨w.map (fun c => (filename, c)), true, false⟩

/-- `download(session, links, dest_dir)`: run one `get_file` task per
link and `asyncio.gather` them; if any task raised an uncaught exception
the awaited gather re-raises it, otherwise the destination directory
holds each task's written file, if any.  `ofn` gives the network outcome
per URL. -/
def download (ofn : String → DlOutcome) (links : List (String × String)) :
    Except String (List (String × String)) :=
  if (links.map (fun l => get_file (ofn l.1) l.2)).any (fun r => r.raised) then
    .error "TimeoutError"
  else .ok ((links.map (fun l => get_file (ofn l.1) l.2)).filterMap
    (fun r => r.file))

/-! ## Run coordinator (`app/scraper/main.py`, `main`) -/

/-- The scraper's domain constant in `main`. -/
def domain : String := "https://spimex.com"

/-- The scraper's starting relative URL in `main`. -/
def results_start_url : String := "/markets/oil_products/trades/results/"

/-- Process-wide state touched by a scrape run: the scratch directory
(`none` when absent, `some files` when present with the given files), the
single-flight flag `scrap_event`, and the committed rows of the store. -/
structure RunState where
  scratch : Option (List (String × String))
  flagSet : Bool
  db : List TradeRow
deriving DecidableEq, Repr

/-- The `finally` clause of `main`: `shutil.rmtree(dest_dir)` then
`scrap_event.clear()`, applied whatever the body produced. -/
def try_finally (body : Except String Unit × RunState) :
    Except String Unit × RunState :=
  (body.1, { body.2 with scratch := none, flagSet := false })

/-- The `try` body of `main`: link discovery, download, extraction,
persistence, each stage short-circuiting on a raised exception.
`extract` stands for `async_extract` (`app/scraper/extracter.py`, whose
source only appears through this call site): it maps the downloaded files
to per-file row groups or raises. -/
def scrap_main_body (site : String → Page) (lastDt : Option Date) (fuel : Nat)
    (ofn : String → DlOutcome)
    (extract : List (String × String) → Except String (List (List TradeRow)))
    (st : RunState) : Except String Unit × RunState :=
  match fetch_links site lastDt domain results_start_url fuel with
  | .error e => (.error e, st)
  | .ok links =>
    match download ofn links with
    | .error e => (.error e, st)
    | .ok files =>
      let st1 := { st with scratch := some ((st.scratch.getD []) ++ files) }
      match extract files with
      | .error e => (.error e, st1)
      | .ok data =>
        match create_data data ⟨st1.db, [], 0⟩ with
        | .error e => (.error e, st1)
        | .ok s => (.ok (), { st1 with db := s.committed })

/-- `main()` (`app/scraper/main.py`): `os.makedirs(dest_dir,
exist_ok=True)`, `scrap_event.set()`, then the four pipeline stages inside
`try`, and the guaranteed `finally` cleanup. -/
def scrap_main (site : String → Page) (lastDt : Option Date) (fuel : Nat)
    (ofn : String → DlOutcome)
    (extract : List (String × String) → Except String (List (List TradeRow)))
    (st : RunState) : Except String Unit × RunState :=
  let st1 := { st with scratch := some (st.scratch.getD []) }
  let st2 := { st1 with flagSet := true }
  try_finally (scrap_main_body site lastDt fuel ofn extract st2)

/-! ## Trigger endpoint (`app/routers/other.py`, `start_scrap`) -/

/-- An HTTP response: status code and the `message` payload. -/
structure Response where
  status : Nat
  message : String
deriving DecidableEq, Repr

/-- `start_scrap` as a straight-line function of the observed flag and the
row count (`all_rows` returns the row count, or `-1` when the
`spimex_trading_results` table does not exist).  The second component
records whether `asyncio.create_task(scrap_main())` was issued. -/
def start_scrap (flagIsSet : Bool) (rows_in_table : Int) : Response × Bool :=
  if flagIsSet then (⟨200, "Another scraper is working now."⟩, false)
  else if rows_in_table = -1 then
    (⟨404, "Migration needs to be done."⟩, false)
  else (⟨201, "The scraper is running."⟩, true)

/-! ## Interleaving model of the trigger endpoint

`start_scrap` runs on the asyncio event loop; everything between two
`await` points is atomic.  The handler's first segment ends at
`await all_rows(session)` after reading `scrap_event.is_set()`; its second
segment checks the row count, calls `asyncio.create_task(scrap_main())`
and returns.  The spawned task's first segment (`os.makedirs`,
`scrap_event.set()`) runs only when the loop later schedules it. -/

/-- Progress of one `start_scrap` request through its atomic segments. -/
inductive ReqPhase
  | entry
  | awaitingRows
  | answered (r : Response)
deriving DecidableEq, Repr

/-- The shared world: the `scrap_event` flag, the number of scrape runs
that have started and not finished, the two concurrent requests, and the
number of spawned `scrap_main` tasks not yet scheduled. -/
structure World where
  flag : Bool
  activeRuns : Nat
  reqA : ReqPhase
  reqB : ReqPhase
  spawned : Nat
deriving DecidableEq, Repr

/-- First atomic segment of `start_scrap`: read `scrap_event.is_set()`;
if set, answer 200 immediately, otherwise suspend on `await all_rows`. -/
def stepCheck (flag : Bool) (ph : ReqPhase) : ReqPhase :=
  match ph with
  | .entry =>
    if flag then .answered ⟨200, "Another scraper is working now."⟩
    else .awaitingRows
  | x => x

/-- Second atomic segment of `start_scrap`, resumed with the row count:
answer 404 on the missing-table sentinel, otherwise spawn the run task
and answer 201. -/
def stepResume (rows : Int) (ph : ReqPhase) (spawned : Nat) : ReqPhase × Nat :=
  match ph with
  | .awaitingRows =>
    if rows = -1 then (.answered ⟨404, "Migration needs to be done."⟩, spawned)
    else (.answered ⟨201, "The scraper is running."⟩, spawned + 1)
  | x => (x, spawned)

/-- First atomic segment of a spawned `scrap_main` task: `os.makedirs`
and `scrap_event.set()` — the run is now active. -/
def stepTaskStart (w : World) : World :=
  if w.spawned > 0 then
    { w with spawned := w.spawned - 1, flag := true,
             activeRuns := w.activeRuns + 1 }
  else w

/-- The racing schedule: both handlers run their check segment while the
other is suspended on `await all_rows`, then both resume and spawn, then
the event loop starts both spawned tasks.  `rows` is the row count each
handler observes. -/
def raceTrace (rows : Int) : World :=
  let w0 : World := ⟨false, 0, .entry, .entry, 0⟩
  let w1 := { w0 with reqA := stepCheck w0.flag w0.reqA }
  let w2 := { w1 with reqB := stepCheck w1.flag w1.reqB }
  let a := stepResume rows w2.reqA w2.spawned
  let w3 := { w2 with reqA := a.1, spawned := a.2 }
  let b := stepResume rows w3.reqB w3.spawned
  let w4 := { w3 with reqB := b.1, spawned := b.2 }
  stepTaskStart (stepTaskStart w4)

/-! ## Response cache (`app/utils/caching.py`, `app/routers/get_data.py`) -/

/-- Python truthiness of an optional list (`if cached_data:`): `None` and
the empty list are both falsy. -/
def pyTruthyList (o : Option (List String)) : Bool :=
  match o with
  | none => false
  | some l => !l.isEmpty

/-- Python truthiness of an optional string (`any((oil_id, ...))`). -/
def pyTruthyStr (o : Option String) : Bool :=
  match o with
  | none => false
  | some s => !s.isEmpty

/-- `get_cache_data(key)`: `redis.get` returns the stored serialized value
or `None`; `orjson.dumps` of a list is never the empty byte string, so a
stored value always deserializes back (`orjson.loads(data) if data else
None`). `store` is the unexpired value held at the request's key. -/
def get_cache_data (store : Option (List String)) : Option (List String) :=
  match store with
  | none => none
  | some v => some v

/-- `get_last_trading_dates` (`app/routers/get_data.py`): serve the cache
when the cached value is truthy, otherwise query the store and rewrite the
cache.  Returns (response body, whether the database was queried, cache
value at the key after the request). -/
def get_last_trading_dates (store : Option (List String))
    (dbDates : List String) :
    List String × Bool × Option (List String) :=
  let cached := get_cache_data store
  if pyTruthyList cached then (cached.getD [], false, store)
  else (dbDates, true, some dbDates)

/-- `get_trading_results` (`app/routers/get_data.py`): 404 unless some
trade parameter is truthy, 400 unless the limit is positive, then the
same cached-data guard as `get_last_trading_dates`.  Rows are abstracted
to their serialized form. -/
def get_trading_results (oil_id delivery_type_id delivery_basis_id : Option String)
    (limit : Int) (store : Option (List String)) (dbRows : List String) :
    Except (Nat × String) (List String × Bool × Option (List String)) :=
  if !(pyTruthyStr oil_id || pyTruthyStr delivery_type_id
        || pyTruthyStr delivery_basis_id) then
    .error (404, "At least one of the trading parameters must be filled in.")
  else if limit ≤ 0 then
    .error (400, "The limit must be a positive number.")
  else
    let cached := get_cache_data store
    if pyTruthyList cached then .ok (cached.getD [], false, store)
    else .ok (dbRows, true, some dbRows)

/-! ## Auxiliary definitions and concrete inputs used by the theorems -/

/-- Whether a Python call returned normally (`.ok`) rather than raising. -/
def exceptIsOk {ε α : Type} : Except ε α → Bool
  | .ok _ => true
  | .error _ => false

/-- A well-formed trading row (all length constraints satisfied). -/
def rowA : TradeRow :=
  ⟨"A001", "Бензин АИ-92", "A100", "W", "База", "F", 10, 100, 2, ⟨2025, 4, 8⟩⟩

/-- A second well-formed trading row. -/
def rowB : TradeRow :=
  ⟨"B002", "Дизель", "B200", "X", "Склад", "P", 5, 50, 1, ⟨2025, 4, 8⟩⟩

/-- A third well-formed trading row. -/
def rowC : TradeRow :=
  ⟨"C003", "Мазут", "C300", "Y", "Порт", "S", 7, 70, 3, ⟨2025, 4, 8⟩⟩

/-- A row violating the `delivery_type_id` length constraint (2 chars). -/
def badTypeRow : TradeRow := { rowA with delivery_type_id := "AB" }

/-- A row whose `delivery_type_id` is the empty string (0 chars). -/
def emptyTypeRow : TradeRow := { rowA with delivery_type_id := "" }

/-- Three file groups of valid rows. -/
def demoOkData : List (List TradeRow) := [[rowA], [rowB], [rowC]]

/-- Three file groups where the last row of the third group violates the
`delivery_type_id` length constraint. -/
def demoData : List (List TradeRow) := [[rowA], [rowB], [rowC, badTypeRow]]

/-- Five discovered links. -/
def fiveLinks : List (String × String) :=
  [("https://spimex.com/f1.xls", "01.04.2025.xls"),
   ("https://spimex.com/f2.xls", "02.04.2025.xls"),
   ("https://spimex.com/f3.xls", "03.04.2025.xls"),
   ("https://spimex.com/f4.xls", "04.04.2025.xls"),
   ("https://spimex.com/f5.xls", "05.04.2025.xls")]

/-- Network outcomes where exactly the third URL exceeds the overall
request deadline (plain `asyncio.TimeoutError`). -/
def timeoutOn3 : String → DlOutcome := fun u =>
  if u = "https://spimex.com/f3.xls" then .timeoutTotal none
  else .ok "xlsdata"

/-- Network outcomes where exactly the third URL raises an
`aiohttp.ClientError` at connect time, before its file is opened. -/
def clientErrOn3 : String → DlOutcome := fun u =>
  if u = "https://spimex.com/f3.xls" then .connectError else .ok "xlsdata"

/-- Network outcomes where exactly the third URL raises an
`aiohttp.ClientError` mid-stream, after two bytes were written. -/
def midStreamOn3 : String → DlOutcome := fun u =>
  if u = "https://spimex.com/f3.xls" then .midStreamError "xl"
  else .ok "xlsdata"

/-- A well-formed bulletin entry dated strictly after 2025-04-01. -/
def bulletinEntry1 : Entry :=
  ⟨some ⟨some "Бюллетень за 02.04.2025", some "/upload/b1.xls?r=1"⟩,
   some (some "02.04.2025")⟩

/-- A well-formed bulletin entry whose path has no leading slash. -/
def bulletinEntry2 : Entry :=
  ⟨some ⟨some "Бюллетень за 03.04.2025", some "upload/b2.xls?r=2"⟩,
   some (some "03.04.2025")⟩

/-- A bulletin entry dated exactly 2025-04-01 (not strictly after it). -/
def stopEntry1 : Entry :=
  ⟨some ⟨some "Бюллетень за 01.04.2025", some "/upload/b0.xls"⟩,
   some (some "01.04.2025")⟩

/-- An entry whose label is not a bulletin. -/
def nonBulletinEntry : Entry :=
  ⟨some ⟨some "Маклерская записка", some "/upload/m.pdf"⟩,
   some (some "01.04.2025")⟩

/-- A structurally malformed entry: `item.find("a")` is not a `Tag`. -/
def missingAnchorEntry : Entry := ⟨none, some (some "02.04.2025")⟩

/-- A bulletin entry whose `item.find("span")` is not a `Tag`. -/
def missingSpanEntry : Entry :=
  ⟨some ⟨some "Бюллетень за 05.04.2025", some "/upload/b5.xls"⟩, none⟩

/-- A single-page site whose listing holds a non-bulletin entry followed
by a malformed entry. -/
def cexSite : String → Page := fun _ => ⟨[nonBulletinEntry, missingAnchorEntry], none⟩

/-! ## Helper lemmas -/

theorem validate_ok_self (r : TradeRow)
    (h : exceptIsOk (ResultSchema.validate r) = true) :
    ResultSchema.validate r = .ok r := by
  unfold ResultSchema.validate at h ⊢
  split_ifs at h ⊢ <;> simp_all [exceptIsOk]

theorem validateFile_ok : ∀ f : List TradeRow,
    (∀ r ∈ f, exceptIsOk (ResultSchema.validate r) = true) →
    validateFile f = .ok f := by
  intro f
  induction f with
  | nil => intro _; rfl
  | cons r rs ih =>
    intro h
    have hr := validate_ok_self r (h r (List.mem_cons_self r rs))
    have hrs := ih (fun x hx => h x (List.mem_cons_of_mem r hx))
    simp [validateFile, hr, hrs]

theorem validateFile_error : ∀ f : List TradeRow,
    (∃ r ∈ f, exceptIsOk (ResultSchema.validate r) = false) →
    ∃ e, validateFile f = .error e := by
  intro f
  induction f with
  | nil => rintro ⟨r, hr, _⟩; cases hr
  | cons r rs ih =>
    rintro ⟨x, hx, hbad⟩
    cases hv : ResultSchema.validate r with
    | error e => exact ⟨e, by simp [validateFile, hv]⟩
    | ok v =>
      rcases List.mem_cons.mp hx with h1 | h2
      · subst h1; rw [hv] at hbad; simp [exceptIsOk] at hbad
      · obtain ⟨e, he⟩ := ih ⟨x, h2, hbad⟩
        exact ⟨e, by simp [validateFile, hv, he]⟩

theorem create_data_ok_general : ∀ (data : List (List TradeRow)) (s : Session),
    (∀ f ∈ data, ∀ r ∈ f, exceptIsOk (ResultSchema.validate r) = true) →
    create_data data s =
      .ok ⟨s.committed ++ s.pending ++ data.flatten, [], s.commits + 1⟩ := by
  intro data
  induction data with
  | nil => intro s _; simp [create_data, Session.commit]
  | cons f rest ih =>
    intro s h
    have hf := validateFile_ok f (h f (by simp))
    have hrest := ih (s.add_all f) (fun g hg => h g (by simp [hg]))
    simp only [Session.add_all] at hrest
    simp [create_data, hf, Session.add_all, hrest, List.append_assoc]

theorem create_data_error_of_bad_row :
    ∀ (data : List (List TradeRow)) (s : Session),
    (∃ f ∈ data, ∃ r ∈ f, exceptIsOk (ResultSchema.validate r) = false) →
    ∃ e, create_data data s = .error e := by
  intro data
  induction data with
  | nil => intro s h; rcases h with ⟨f, hf, _⟩; cases hf
  | cons f rest ih =>
    intro s h
    by_cases hbad : ∃ r ∈ f, exceptIsOk (ResultSchema.validate r) = false
    · obtain ⟨e, he⟩ := validateFile_error f hbad
      exact ⟨e, by simp [create_data, he]⟩
    · have hf : validateFile f = .ok f := by
        apply validateFile_ok
        intro r hr
        by_contra hc
        exact hbad ⟨r, hr, by rwa [Bool.not_eq_true] at hc⟩
      rcases h with ⟨g, hg, hrow⟩
      rcases List.mem_cons.mp hg with rfl | hg2
      · exact absurd hrow hbad
      · obtain ⟨e, he⟩ := ih (s.add_all f) ⟨g, hg2, hrow⟩
        exact ⟨e, by simp [create_data, hf, he]⟩

/-- The files present in the destination directory after every task of a
batch has run: the full body for a completed stream, the bytes written so
far for a mid-stream failure, and nothing for a failure raised before the
file was opened. -/
def filesWritten (ofn : String → DlOutcome) (links : List (String × String)) :
    List (String × String) :=
  links.filterMap (fun l =>
    match ofn l.1 with
    | .ok c => some (l.2, c)
    | .midStreamError w => some (l.2, w)
    | .timeoutTotal (some w) => some (l.2, w)
    | _ => none)

theorem file_comp_eq (ofn : String → DlOutcome) :
    ((fun r : DlResult => r.file) ∘
        fun l : String × String => get_file (ofn l.1) l.2)
      = (fun l : String × String =>
          match ofn l.1 with
          | DlOutcome.ok c => some (l.2, c)
          | DlOutcome.midStreamError w => some (l.2, w)
          | DlOutcome.timeoutTotal (some w) => some (l.2, w)
          | _ => none) := by
  funext l
  cases ho : ofn l.1 with
  | ok c => simp [Function.comp, get_file, ho]
  | connectError => simp [Function.comp, get_file, ho]
  | midStreamError w => simp [Function.comp, get_file, ho]
  | timeoutTotal w => cases w <;> simp [Function.comp, get_file, ho]

theorem filterMap_file_map (ofn : String → DlOutcome)
    (links : List (String × String)) :
    (links.map (fun l => get_file (ofn l.1) l.2)).filterMap (fun r => r.file)
      = filesWritten ofn links := by
  rw [List.filterMap_map, file_comp_eq]
  rfl

theorem download_no_timeout (ofn : String → DlOutcome)
    (links : List (String × String))
    (h : ∀ l ∈ links, isTimeout (ofn l.1) = false) :
    download ofn links = .ok (filesWritten ofn links) := by
  have hany :
      (links.map (fun l => get_file (ofn l.1) l.2)).any (fun r => r.raised)
        = false := by
    rw [List.any_eq_false]
    intro r hr
    obtain ⟨l, hl, rfl⟩ := List.mem_map.mp hr
    have hne := h l hl
    cases ho : ofn l.1 with
    | ok c => simp [get_file]
    | connectError => simp [get_file]
    | midStreamError w => simp [get_file]
    | timeoutTotal w => rw [ho] at hne; simp [isTimeout] at hne
  unfold download
  rw [hany, if_neg (by simp), filterMap_file_map]

/-! ## Claim theorems -/

/-- C1: the claim says concurrent start requests resolve atomically —
exactly one run starts and the other request is told "already running".
The code checks `scrap_event.is_set()` in the handler but only sets the
flag inside the spawned `scrap_main` task, with an `await all_rows(...)`
suspension point in between; under the interleaving in `raceTrace`, both
handlers pass the check, both spawn a task and answer 201, and two scrape
runs are active at once. -/
theorem start_scrap_race_two_runs :
    (raceTrace 0).activeRuns = 2 ∧ (raceTrace 0).flag = true ∧
    (raceTrace 0).reqA = .answered ⟨201, "The scraper is running."⟩ ∧
    (raceTrace 0).reqB = .answered ⟨201, "The scraper is running."⟩ :=
  ⟨rfl, rfl, rfl, rfl⟩

/-- C2: `create_data` validates every row against `ResultSchema` and
persists all rows of all file groups with exactly one commit call; if any
row fails validation, the call raises and the store is unchanged (zero
rows persisted). -/
theorem create_data_single_commit_all_or_nothing
    (db : List TradeRow) (data : List (List TradeRow)) :
    ((∀ f ∈ data, ∀ r ∈ f, exceptIsOk (ResultSchema.validate r) = true) →
       create_data data ⟨db, [], 0⟩ = .ok ⟨db ++ data.flatten, [], 1⟩) ∧
    ((∃ f ∈ data, ∃ r ∈ f, exceptIsOk (ResultSchema.validate r) = false) →
       (∃ e, create_data data ⟨db, [], 0⟩ = .error e) ∧
       run_create_data db data = db) := by
  constructor
  · intro h
    have hg := create_data_ok_general data ⟨db, [], 0⟩ h
    simpa using hg
  · intro h
    obtain ⟨e, he⟩ := create_data_error_of_bad_row data ⟨db, [], 0⟩ h
    refine ⟨⟨e, he⟩, ?_⟩
    unfold run_create_data
    rw [he]

/-- Instance of C2 on the spec's own test case: three file groups, all
valid rows commit in one transaction; with the last row of the third
group violating the `delivery_type_id` length, the call raises and the
store keeps zero rows. -/
theorem create_data_single_commit_all_or_nothing_witness :
    create_data demoOkData ⟨[], [], 0⟩ = .ok ⟨demoOkData.flatten, [], 1⟩ ∧
    run_create_data [] demoData = [] := by
  constructor
  · have h := (create_data_single_commit_all_or_nothing [] demoOkData).1
      (by decide)
    simpa using h
  · exact ((create_data_single_commit_all_or_nothing [] demoData).2
      (by decide)).2

/-- C4: after a scrape run — whatever each stage returned or raised — the
scratch directory no longer exists and the single-flight flag is clear. -/
theorem scrap_main_cleanup_invariant (site : String → Page)
    (lastDt : Option Date) (fuel : Nat) (ofn : String → DlOutcome)
    (extract : List (String × String) → Except String (List (List TradeRow)))
    (st : RunState) :
    (scrap_main site lastDt fuel ofn extract st).2.scratch = none ∧
    (scrap_main site lastDt fuel ofn extract st).2.flagSet = false := by
  simp [scrap_main, try_finally]

/-- C5 counterexample: the claim says a launched run answers
`202 Accepted`; the code answers `201 Created`
(`status.HTTP_201_CREATED` in `start_scrap`). -/
theorem start_scrap_status_cex :
    (start_scrap false 0).1.status = 201 ∧
    (start_scrap false 0).1.status ≠ 202 := by decide

/-- C5 (amended): every invocation of the trigger endpoint yields exactly
one of three outcomes — 201 with "running" when a run is launched, 200
with "already working" when the flag is set (no run started), 404 with
"migration" on the missing-table sentinel -1 (no run started). -/
theorem start_scrap_three_outcomes (flag : Bool) (rows : Int) :
    (flag = true →
       start_scrap flag rows =
         (⟨200, "Another scraper is working now."⟩, false)) ∧
    (flag = false → rows = -1 →
       start_scrap flag rows = (⟨404, "Migration needs to be done."⟩, false)) ∧
    (flag = false → rows ≠ -1 →
       start_scrap flag rows = (⟨201, "The scraper is running."⟩, true)) := by
  refine ⟨?_, ?_, ?_⟩
  · intro h; subst h; simp [start_scrap]
  · intro h h2; subst h; simp [start_scrap, h2]
  · intro h h2; subst h; simp [start_scrap, h2]

/-- Witness for C5: an idle flag and a zero row count launch the run with
a 201 response. -/
theorem start_scrap_three_outcomes_witness :
    start_scrap false 0 = (⟨201, "The scraper is running."⟩, true) :=
  (start_scrap_three_outcomes false 0).2.2 rfl (by decide)

/-- C6 counterexample: with five links of which exactly one always fails,
the claim says the batch returns without raising; when the failure is the
overall deadline (plain `asyncio.TimeoutError`, not an
`aiohttp.ClientError`), `get_file` does not catch it and the awaited
gather raises. -/
theorem download_timeout_aborts_cex :
    download timeoutOn3 fiveLinks = .error "TimeoutError" := rfl

/-- C6 (amended): a download failing with an `aiohttp.ClientError` is
logged and does not abort the other downloads or the batch; raised at
connect time, before the destination file is opened, it leaves that
link's file absent, while raised mid-stream it leaves the already-opened
file holding the bytes written so far.  Only a plain
`asyncio.TimeoutError` (the overall deadline) escapes `get_file`; with no
such timeout in the batch, the call returns normally and the destination
directory holds exactly `filesWritten`. -/
theorem download_client_error_isolation (ofn : String → DlOutcome)
    (links : List (String × String))
    (h : ∀ l ∈ links, isTimeout (ofn l.1) = false) :
    download ofn links = .ok (filesWritten ofn links) ∧
    (∀ l ∈ links, ofn l.1 = DlOutcome.connectError →
      (get_file (ofn l.1) l.2).loggedError = true ∧
      (get_file (ofn l.1) l.2).file = none) ∧
    (∀ l ∈ links, ∀ w, ofn l.1 = DlOutcome.midStreamError w →
      (get_file (ofn l.1) l.2).loggedError = true ∧
      (get_file (ofn l.1) l.2).file = some (l.2, w)) := by
  refine ⟨download_no_timeout ofn links h, ?_, ?_⟩
  · intro l _ hl
    rw [hl]
    exact ⟨rfl, rfl⟩
  · intro l _ w hl
    rw [hl]
    exact ⟨rfl, rfl⟩

/-- Witness for C6: five links.  With one connect-time `ClientError` the
batch returns normally and exactly the other four files are present; with
one mid-stream `ClientError` the batch returns normally and the failed
link's file remains on disk with its partial bytes. -/
theorem download_client_error_isolation_witness :
    download clientErrOn3 fiveLinks =
      .ok [("01.04.2025.xls", "xlsdata"), ("02.04.2025.xls", "xlsdata"),
           ("04.04.2025.xls", "xlsdata"), ("05.04.2025.xls", "xlsdata")] ∧
    download midStreamOn3 fiveLinks =
      .ok [("01.04.2025.xls", "xlsdata"), ("02.04.2025.xls", "xlsdata"),
           ("03.04.2025.xls", "xl"), ("04.04.2025.xls", "xlsdata"),
           ("05.04.2025.xls", "xlsdata")] := by
  constructor
  · have h := (download_client_error_isolation clientErrOn3 fiveLinks
      (by decide)).1
    rw [h]
    rfl
  · have h := (download_client_error_isolation midStreamOn3 fiveLinks
      (by decide)).1
    rw [h]
    rfl

/-- C8 counterexample: the claim says `deliveryTypeId` must be exactly one
character; `ResultSchema` only constrains `max_length=1`, so the empty
string (length 0) is accepted. -/
theorem delivery_type_empty_accepted_cex :
    ResultSchema.validate emptyTypeRow = .ok emptyTypeRow ∧
    emptyTypeRow.delivery_type_id.length ≠ 1 := ⟨rfl, by decide⟩

/-- C8 (amended): validation accepts a row exactly when every string field
is within its maximum length (11, 255, 4, 3, 255, and at most 1 for
`delivery_type_id`), and an accepted row is returned unchanged — rejected,
never truncated. -/
theorem result_schema_length_bounds (r : TradeRow) :
    (exceptIsOk (ResultSchema.validate r) = true ↔
      (r.exchange_product_id.length ≤ 11 ∧
       r.exchange_product_name.length ≤ 255 ∧
       r.oil_id.length ≤ 4 ∧
       r.delivery_basis_id.length ≤ 3 ∧
       r.delivery_basis_name.length ≤ 255 ∧
       r.delivery_type_id.length ≤ 1)) ∧
    (∀ v, ResultSchema.validate r = .ok v → v = r) := by
  constructor
  · unfold ResultSchema.validate
    split_ifs <;> (simp [exceptIsOk]; omega)
  · intro v hv
    unfold ResultSchema.validate at hv
    split_ifs at hv
    all_goals simp_all

/-- Witness for C8: a concrete in-bounds row is accepted. -/
theorem result_schema_length_bounds_witness :
    exceptIsOk (ResultSchema.validate rowA) = true :=
  (result_schema_length_bounds rowA).1.mpr (by decide)

/-- C10: a cached empty list is falsy, so the cached-data guard treats it
as a miss: with an unexpired empty list at the key, both query endpoints
hit the database and rewrite the cache, and the response is the database
result, never the cached value. -/
theorem empty_list_cache_miss (dbDates dbRows : List String)
    (oil : Option String) (limit : Int) :
    get_last_trading_dates (some []) dbDates = (dbDates, true, some dbDates) ∧
    (pyTruthyStr oil = true → 0 < limit →
      get_trading_results oil none none limit (some []) dbRows =
        .ok (dbRows, true, some dbRows)) := by
  constructor
  · rfl
  · intro h hl
    simp [get_trading_results, h, get_cache_data, pyTruthyList,
      not_le.mpr hl]

/-- Witness for C10: concrete requests against a cached empty list query
the database and rewrite the cache. -/
theorem empty_list_cache_miss_witness :
    get_last_trading_dates (some []) ["2025-04-08"] =
      (["2025-04-08"], true, some ["2025-04-08"]) ∧
    get_trading_results (some "A100") none none 10 (some []) [] =
      .ok ([], true, some []) :=
  ⟨(empty_list_cache_miss ["2025-04-08"] [] (some "A100") 10).1,
   (empty_list_cache_miss ["2025-04-08"] [] (some "A100") 10).2
     (by decide) (by decide)⟩

/-! ## Helper lemmas about link discovery -/

theorem splitOnC_ne_nil (sep : Char) (cs : List Char) : splitOnC sep cs ≠ [] := by
  cases cs with
  | nil => simp [splitOnC]
  | cons c cs' =>
    simp only [splitOnC]
    split
    · simp
    · split <;> simp

theorem extOf_norm (p : String) : extOf ("/" ++ p) = extOf p := by
  unfold extOf
  have h1 : ("/" ++ p).toList = '/' :: p.toList := rfl
  rw [h1]
  cases hq : splitOnC '?' p.toList with
  | nil => exact absurd hq (splitOnC_ne_nil '?' p.toList)
  | cons q qs =>
    simp only [splitOnC, hq]
    simp only [show (('/' : Char) == '?') = false from rfl, Bool.false_eq_true,
      if_false, List.headD_cons]
    simp only [show (('/' : Char) == '/') = true from rfl, if_true]
    rw [List.getLastD_cons]

theorem page_cons_good (lastDt : Option Date) (b : String) (e : Entry)
    (rest : List Entry) (h : goodEntry lastDt e = true) :
    ∃ l, entryLink b e = some l ∧
      fetch_links_page lastDt b (e :: rest) =
        (fetch_links_page lastDt b rest).map (fun p => (l :: p.1, p.2)) := by
  obtain ⟨anchor, span⟩ := e
  cases anchor with
  | none => simp [goodEntry] at h
  | some a =>
    cases span with
    | none => simp [goodEntry] at h
    | some sOpt =>
      cases sOpt with
      | none => simp [goodEntry] at h
      | some ds =>
        simp only [goodEntry] at h
        rw [Bool.and_eq_true] at h
        obtain ⟨h1, h2⟩ := h
        cases hpd : parseDate ds with
        | none => rw [hpd] at h2; cases a.href <;> simp at h2
        | some dt =>
          cases hh : a.href with
          | none => rw [hpd, hh] at h2; simp at h2
          | some p =>
            rw [hpd, hh] at h2
            simp only [Bool.not_eq_true'] at h2
            have hsc : stopCond lastDt dt = false := h2
            refine ⟨(b ++ (if pyStartsWith "/" p then p else "/" ++ p),
                     ds ++ "." ++ extOf (if pyStartsWith "/" p then p
                       else "/" ++ p)), ?_, ?_⟩
            · simp [entryLink, hh]
            · cases hrec : fetch_links_page lastDt b rest with
              | error m =>
                simp [fetch_links_page, h1, hpd, hsc, hh, hrec, Except.map]
              | ok pr =>
                obtain ⟨ls, stop⟩ := pr
                simp [fetch_links_page, h1, hpd, hsc, hh, hrec, Except.map]

theorem page_good_append (lastDt : Option Date) (b : String) :
    ∀ (good rest : List Entry),
      (∀ x ∈ good, goodEntry lastDt x = true) →
      fetch_links_page lastDt b (good ++ rest) =
        (fetch_links_page lastDt b rest).map
          (fun p => (good.filterMap (entryLink b) ++ p.1, p.2)) := by
  intro good
  induction good with
  | nil =>
    intro rest _
    cases hrec : fetch_links_page lastDt b rest with
    | error m => simp [hrec, Except.map]
    | ok pr => obtain ⟨ls, stop⟩ := pr; simp [hrec, Except.map]
  | cons g gs ih =>
    intro rest h
    obtain ⟨l, hel, heq⟩ := page_cons_good lastDt b g (gs ++ rest)
      (h g (List.mem_cons_self g gs))
    rw [List.cons_append, heq, ih rest (fun x hx => h x (List.mem_cons_of_mem g hx))]
    cases hrec : fetch_links_page lastDt b rest with
    | error m => simp [Except.map, hel]
    | ok pr => obtain ⟨ls, stop⟩ := pr; simp [Except.map, hel]

theorem page_stop_head (lastDt : Option Date) (b : String) (e : Entry)
    (rest : List Entry) (h : stopEntry lastDt e = true) :
    fetch_links_page lastDt b (e :: rest) = .ok ([], true) := by
  obtain ⟨anchor, span⟩ := e
  cases anchor with
  | none => simp [stopEntry] at h
  | some a =>
    cases span with
    | none => simp [stopEntry] at h
    | some sOpt =>
      cases sOpt with
      | none => simp [stopEntry] at h
      | some ds =>
        simp only [stopEntry] at h
        rw [Bool.and_eq_true] at h
        obtain ⟨h1, h2⟩ := h
        cases hpd : parseDate ds with
        | none => rw [hpd] at h2; simp at h2
        | some dt =>
          rw [hpd] at h2
          simp only [] at h2
          simp [fetch_links_page, h1, hpd, h2]

theorem page_sound (lastDt : Option Date) (b : String) :
    ∀ (entries : List Entry) (links : List (String × String)) (stop : Bool),
      fetch_links_page lastDt b entries = .ok (links, stop) →
      ∀ l ∈ links, ∃ e, e ∈ entries ∧ entryLink b e = some l ∧
        ∃ d, entryDate e = some d ∧ stopCond lastDt d = false := by
  intro entries
  induction entries with
  | nil =>
    intro links stop h l hl
    simp only [fetch_links_page, Except.ok.injEq, Prod.mk.injEq] at h
    obtain ⟨h1, -⟩ := h
    subst h1
    cases hl
  | cons e rest ih =>
    intro links stop h l hl
    obtain ⟨anchor, span⟩ := e
    cases anchor with
    | none => simp [fetch_links_page] at h
    | some a =>
      cases hb : containsSub bulletinMarker (a.label.getD "") with
      | false =>
        simp only [fetch_links_page, hb, Bool.false_eq_true, if_false,
          Except.ok.injEq, Prod.mk.injEq] at h
        obtain ⟨h1, -⟩ := h
        subst h1
        cases hl
      | true =>
        cases span with
        | none => simp [fetch_links_page, hb] at h
        | some sOpt =>
          cases sOpt with
          | none => simp [fetch_links_page, hb] at h
          | some ds =>
            cases hpd : parseDate ds with
            | none => simp [fetch_links_page, hb, hpd] at h
            | some dt =>
              cases hsc : stopCond lastDt dt with
              | true =>
                simp only [fetch_links_page, hb, hpd, hsc, if_true,
                  Except.ok.injEq, Prod.mk.injEq] at h
                obtain ⟨h1, -⟩ := h
                subst h1
                cases hl
              | false =>
                cases hh : a.href with
                | none => simp [fetch_links_page, hb, hpd, hsc, hh] at h
                | some p =>
                  cases hrec : fetch_links_page lastDt b rest with
                  | error m =>
                    simp [fetch_links_page, hb, hpd, hsc, hh, hrec] at h
                  | ok pr =>
                    obtain ⟨ls, st⟩ := pr
                    simp only [fetch_links_page, hb, hpd, hsc, hh, hrec,
                      Bool.false_eq_true, if_false, Except.ok.injEq,
                      Prod.mk.injEq, if_true] at h
                    obtain ⟨h1, -⟩ := h
                    subst h1
                    rcases List.mem_cons.mp hl with rfl | hl2
                    · refine ⟨⟨some a, some (some ds)⟩,
                        List.mem_cons_self _ _, ?_, dt, ?_, hsc⟩
                      · simp [entryLink, hh]
                      · simp [entryDate, hpd]
                    · obtain ⟨e', he1, he2, d, hd1, hd2⟩ := ih ls st hrec l hl2
                      exact ⟨e', List.mem_cons_of_mem _ he1, he2, d, hd1, hd2⟩

theorem go_stop (site : String → Page) (lastDt : Option Date) (b : String)
    (fuel : Nat) (cur : String) (acc ls : List (String × String))
    (h : fetch_links_page lastDt b (site (b ++ cur)).entries = .ok (ls, true)) :
    fetch_links_go site lastDt b (fuel + 1) cur acc = .ok (acc ++ ls) := by
  simp [fetch_links_go, h]

/-- C3: link discovery never appends an entry whose date fails the stop
check — every appended link comes from an entry dated strictly after the
last persisted date and outside 2022 (part 1); a bulletin entry hitting
the stop condition ends the page scan with only the earlier good entries
appended (part 2) and ends pagination without visiting any further page
(part 3); and every good bulletin entry scanned before the stop is
appended (parts 2 and 4). -/
theorem fetch_links_stop_condition (lastDt : Option Date) (b : String) :
    (∀ (entries : List Entry) (links : List (String × String)) (stop : Bool),
       fetch_links_page lastDt b entries = .ok (links, stop) →
       ∀ l ∈ links, ∃ e, e ∈ entries ∧ entryLink b e = some l ∧
         ∃ d, entryDate e = some d ∧ stopCond lastDt d = false) ∧
    (∀ (good : List Entry) (e : Entry) (post : List Entry),
       (∀ x ∈ good, goodEntry lastDt x = true) →
       stopEntry lastDt e = true →
       fetch_links_page lastDt b (good ++ e :: post) =
         .ok (good.filterMap (entryLink b), true)) ∧
    (∀ (site : String → Page) (fuel : Nat) (cur : String)
       (acc ls : List (String × String)),
       fetch_links_page lastDt b (site (b ++ cur)).entries = .ok (ls, true) →
       fetch_links_go site lastDt b (fuel + 1) cur acc = .ok (acc ++ ls)) ∧
    (∀ good : List Entry, (∀ x ∈ good, goodEntry lastDt x = true) →
       fetch_links_page lastDt b good =
         .ok (good.filterMap (entryLink b), false)) := by
  refine ⟨page_sound lastDt b, ?_,
    fun site fuel cur acc ls h => go_stop site lastDt b fuel cur acc ls h, ?_⟩
  · intro good e post hg he
    rw [page_good_append lastDt b good (e :: post) hg,
      page_stop_head lastDt b e post he]
    simp [Except.map]
  · intro good hg
    have hx := page_good_append lastDt b good [] hg
    rw [List.append_nil] at hx
    rw [hx]
    simp [fetch_links_page, Except.map]

/-- Witness for C3: with last persisted date 2025-04-01, a page holding a
bulletin dated 2025-04-02, one dated 2025-04-01 and one dated 2025-04-03
appends exactly the first and stops. -/
theorem fetch_links_stop_condition_witness :
    fetch_links_page (some ⟨2025, 4, 1⟩) "https://spimex.com"
        [bulletinEntry1, stopEntry1, bulletinEntry2] =
      .ok ([("https://spimex.com/upload/b1.xls?r=1", "02.04.2025.xls")],
        true) := by
  have h := (fetch_links_stop_condition (some ⟨2025, 4, 1⟩)
    "https://spimex.com").2.1 [bulletinEntry1] stopEntry1 [bulletinEntry2]
    (by decide) (by decide)
  exact h

/-- C7 counterexample: a listing page containing a structurally malformed
entry (missing anchor tag) placed after a non-bulletin entry; discovery
completes without raising — the claim's unconditional "raises and aborts"
is false because the page scan breaks at the first non-bulletin label. -/
theorem fetch_links_skips_malformed_cex :
    missingAnchorEntry.anchor = none ∧
    fetch_links cexSite none domain results_start_url 5 = .ok [] :=
  ⟨rfl, rfl⟩

/-- C7 (amended): a structurally malformed entry that the scan reaches —
one preceded only by well-formed bulletin entries passing the stop check,
and itself either missing its anchor, or a bulletin entry missing its
date span or its string date, or one with a parseable non-stopping date
and a non-string `href` — raises a descriptive `ValueError` that aborts
discovery; entries after a non-bulletin label or after the stop fires are
never examined. -/
theorem fetch_links_malformed_scanned_error (lastDt : Option Date)
    (b : String) (pre : List Entry) (e : Entry) (post : List Entry)
    (hpre : ∀ x ∈ pre, goodEntry lastDt x = true)
    (hmal : malformedScanned lastDt e = true) :
    ∃ msg, fetch_links_page lastDt b (pre ++ e :: post) = .error msg := by
  have herr : ∃ msg, fetch_links_page lastDt b (e :: post) = .error msg := by
    obtain ⟨anchor, span⟩ := e
    cases anchor with
    | none =>
      exact ⟨"link element must be a Tag instance", by simp [fetch_links_page]⟩
    | some a =>
      simp only [malformedScanned] at hmal
      rw [Bool.and_eq_true] at hmal
      obtain ⟨h1, h2⟩ := hmal
      cases span with
      | none =>
        exact ⟨"span element must be a Tag instance",
          by simp [fetch_links_page, h1]⟩
      | some sOpt =>
        cases sOpt with
        | none =>
          exact ⟨"date element must be a NavigableString instance",
            by simp [fetch_links_page, h1]⟩
        | some ds =>
          simp only [] at h2
          cases hpd : parseDate ds with
          | none => rw [hpd] at h2; simp at h2
          | some dt =>
            rw [hpd] at h2
            rw [Bool.and_eq_true] at h2
            obtain ⟨hsc, hhn⟩ := h2
            simp only [Bool.not_eq_true'] at hsc
            cases hh : a.href with
            | some p => rw [hh] at hhn; simp at hhn
            | none =>
              exact ⟨"href element must be a string",
                by simp [fetch_links_page, h1, hpd, hsc, hh]⟩
  obtain ⟨msg, hm⟩ := herr
  refine ⟨msg, ?_⟩
  rw [page_good_append lastDt b pre (e :: post) hpre, hm]
  rfl

/-- Witness for C7 (amended): a malformed entry right after one good
bulletin entry aborts discovery with an error. -/
theorem fetch_links_malformed_scanned_error_witness :
    ∃ msg, fetch_links_page none "https://spimex.com"
        [bulletinEntry1, missingAnchorEntry, bulletinEntry2] = .error msg :=
  fetch_links_malformed_scanned_error none "https://spimex.com"
    [bulletinEntry1] missingAnchorEntry [bulletinEntry2]
    (by decide) (by decide)

/-- C9: every appended link pairs the base domain concatenated with the
entry's path (prefixed with '/' when absent) with a filename made of the
displayed date, a dot, and the extension of the path after stripping any
query string. -/
theorem entry_link_shape (lastDt : Option Date) (b : String)
    (entries : List Entry) (links : List (String × String)) (stop : Bool)
    (h : fetch_links_page lastDt b entries = .ok (links, stop)) :
    ∀ l ∈ links, ∃ e a ds p, e ∈ entries ∧ e.anchor = some a ∧
      e.span = some (some ds) ∧ a.href = some p ∧
      l = (b ++ (if pyStartsWith "/" p then p else "/" ++ p),
           ds ++ "." ++ extOf p) := by
  intro l hl
  obtain ⟨e, he, hel, -⟩ := page_sound lastDt b entries links stop h l hl
  obtain ⟨anchor, span⟩ := e
  cases anchor with
  | none => simp [entryLink] at hel
  | some a =>
    cases span with
    | none => simp [entryLink] at hel
    | some sOpt =>
      cases sOpt with
      | none => simp [entryLink] at hel
      | some ds =>
        cases hh : a.href with
        | none => simp [entryLink, hh] at hel
        | some p =>
          simp only [entryLink, hh, Option.some.injEq] at hel
          refine ⟨⟨some a, some (some ds)⟩, a, ds, p, he, rfl, rfl, hh, ?_⟩
          cases hsw : pyStartsWith "/" p with
          | true =>
            rw [hsw] at hel
            simp only [if_true] at hel ⊢
            exact hel.symm
          | false =>
            rw [hsw] at hel
            simp only [Bool.false_eq_true, if_false] at hel ⊢
            rw [extOf_norm] at hel
            exact hel.symm

/-- Witness for C9: an entry whose path has no leading slash and carries
a query string yields the normalized absolute URL and the
`{date}.{extension}` filename. -/
theorem entry_link_shape_witness :
    ∃ e a ds p, e ∈ [bulletinEntry2] ∧ e.anchor = some a ∧
      e.span = some (some ds) ∧ a.href = some p ∧
      (("https://spimex.com/upload/b2.xls?r=2" : String),
        ("03.04.2025.xls" : String)) =
        ("https://spimex.com" ++ (if pyStartsWith "/" p then p else "/" ++ p),
         ds ++ "." ++ extOf p) :=
  entry_link_shape none "https://spimex.com" [bulletinEntry2]
    [("https://spimex.com/upload/b2.xls?r=2", "03.04.2025.xls")] false rfl
    ("https://spimex.com/upload/b2.xls?r=2", "03.04.2025.xls") (by simp)
